import Mathlib

/-!
# Blob container manager (`pkg/resourcemanager/storages/blobcontainer/blob_container.go`)

A shallow embedding of the Go package `blobcontainer`: the client-construction
helper `getContainerClient` and the three manager methods `CreateBlobContainer`,
`GetBlobContainer` and `DeleteBlobContainer`.

Conventions of the embedding.

* A Go `error` is an `Option Err`; `none` is the `nil` error.
* A Go pointer `*T` is an `Option T`; `none` is the `nil` pointer.
* A Go function returning `(T, error)` returns a pair `T × Option Err`: Go
  returns both components at once, and the embedding keeps both.
* The zero value of a Go type is the `0` of its `Zero` instance.
* The collaborators that the file imports (`config`, `iam`, the storage SDK
  client and its remote operations) are the fields of an `Env`.  The stateful
  ones act on a hidden collaborator state `σ`, so their answers may differ from
  call to call.
* Every call to the authorization collaborator and to a remote operation is
  appended to the `trace` of the `World`, with the arguments it received.
* SDK struct types are embedded with the fields this file reads or writes, and
  one field `other` that stands for all remaining fields the SDK declares.
-/

set_option linter.dupNamespace false

namespace blobcontainer

/-! ## SDK data types -/

/-- Go `storage.PublicAccess`, a string type. -/
abbrev PublicAccess := String

/-- SDK constant `storage.PublicAccessBlob`. -/
def PublicAccessBlob : PublicAccess := "Blob"

/-- SDK constant `storage.PublicAccessContainer`. -/
def PublicAccessContainer : PublicAccess := "Container"

/-- SDK constant `storage.PublicAccessNone`. -/
def PublicAccessNone : PublicAccess := "None"

/-- Go `http.Response`: the status code, and the remaining fields. -/
structure http.Response (H : Type) where
  StatusCode : Int
  other : H
deriving DecidableEq, Repr

/-- Go `autorest.Response`: a struct holding a `*http.Response`. -/
structure autorest.Response (H : Type) where
  Response : Option (http.Response H)
deriving DecidableEq, Repr

/-- Go `storage.ContainerProperties`: the access level, and the remaining fields. -/
structure ContainerProperties (P : Type) where
  PublicAccess : PublicAccess
  other : P
deriving DecidableEq, Repr

/-- Go `storage.BlobContainer`: the embedded `autorest.Response`, the embedded
`*ContainerProperties`, the `Name *string`, and the remaining fields. -/
structure BlobContainer (H P B : Type) where
  Response : autorest.Response H
  ContainerProperties : Option (ContainerProperties P)
  Name : Option String
  other : B
deriving DecidableEq, Repr

/-- Go `storage.BlobContainersClient`: base URI, subscription ID, authorizer,
user agent, and the remaining fields. -/
structure BlobContainersClient (Auth C : Type) where
  BaseURI : String
  SubscriptionID : String
  Authorizer : Option Auth
  UserAgent : String
  other : C
deriving DecidableEq, Repr

instance {H : Type} [Zero H] : Zero (http.Response H) :=
  ⟨{ StatusCode := 0, other := 0 }⟩

instance {H : Type} : Zero (autorest.Response H) :=
  ⟨{ Response := none }⟩

instance {P : Type} [Zero P] : Zero (ContainerProperties P) :=
  ⟨{ PublicAccess := "", other := 0 }⟩

instance {H P B : Type} [Zero B] : Zero (BlobContainer H P B) :=
  ⟨{ Response := 0, ContainerProperties := none, Name := none, other := 0 }⟩

instance {Auth C : Type} [Zero C] : Zero (BlobContainersClient Auth C) :=
  ⟨{ BaseURI := "", SubscriptionID := "", Authorizer := none, UserAgent := "", other := 0 }⟩

/-! ## The manager, the collaborators and the world -/

/-- Go `AzureBlobContainerManager`. -/
structure AzureBlobContainerManager (Creds : Type) where
  creds : Creds
deriving DecidableEq, Repr

/-- One recorded call to a collaborator, with the arguments it received. -/
inductive Event (Creds Ctx Auth H P B C : Type) where
  | GetResourceManagementAuthorizer (creds : Creds)
  | Create (client : BlobContainersClient Auth C) (ctx : Ctx)
      (resourceGroupName accountName containerName : String)
      (blobContainer : BlobContainer H P B)
  | Get (client : BlobContainersClient Auth C) (ctx : Ctx)
      (resourceGroupName accountName containerName : String)
  | Delete (client : BlobContainersClient Auth C) (ctx : Ctx)
      (resourceGroupName accountName containerName : String)
deriving DecidableEq, Repr

/-- Whether a recorded call is one of the remote operations Create, Get, Delete. -/
def Event.isRemote {Creds Ctx Auth H P B C : Type} : Event Creds Ctx Auth H P B C → Bool
  | .GetResourceManagementAuthorizer _ => false
  | .Create _ _ _ _ _ _ => true
  | .Get _ _ _ _ _ => true
  | .Delete _ _ _ _ _ => true

/-- The recorded remote calls of a trace. -/
def remoteCalls {Creds Ctx Auth H P B C : Type} (t : List (Event Creds Ctx Auth H P B C)) :
    List (Event Creds Ctx Auth H P B C) :=
  t.filter Event.isRemote

/-- The collaborators of the package.
`BaseURI`, `UserAgent` are `config.BaseURI()` and `config.UserAgent()`;
`SubscriptionID` is `creds.SubscriptionID()`;
`NewBlobContainersClientWithBaseURI` and `AddToUserAgent` are the SDK client
constructor and the SDK method extending the user agent of a client (the error
that method returns is dropped by the caller and is not part of the embedding);
`GetResourceManagementAuthorizer` is `iam.GetResourceManagementAuthorizer`;
`Create`, `Get`, `Delete` are the remote operations of the SDK client. -/
structure Env (Creds Ctx Auth Err H P B C σ : Type) where
  BaseURI : String
  UserAgent : String
  SubscriptionID : Creds → String
  NewBlobContainersClientWithBaseURI : String → String → BlobContainersClient Auth C
  AddToUserAgent : BlobContainersClient Auth C → String → BlobContainersClient Auth C
  GetResourceManagementAuthorizer : Creds → σ → (Option Auth × Option Err) × σ
  Create : BlobContainersClient Auth C → Ctx → String → String → String →
    BlobContainer H P B → σ → (BlobContainer H P B × Option Err) × σ
  Get : BlobContainersClient Auth C → Ctx → String → String → String →
    σ → (BlobContainer H P B × Option Err) × σ
  Delete : BlobContainersClient Auth C → Ctx → String → String → String →
    σ → (autorest.Response H × Option Err) × σ

/-- The hidden state of the collaborators and the calls recorded so far. -/
structure World (Creds Ctx Auth H P B C σ : Type) where
  state : σ
  trace : List (Event Creds Ctx Auth H P B C)

/-- A world in which no call has been recorded yet. -/
def World.init {Creds Ctx Auth H P B C σ : Type} (s : σ) : World Creds Ctx Auth H P B C σ :=
  { state := s, trace := [] }

section Operations

variable {Creds Ctx Auth Err H P B C σ : Type}

/-- A call `iam.GetResourceManagementAuthorizer(creds)`, recorded. -/
def callGetResourceManagementAuthorizer (env : Env Creds Ctx Auth Err H P B C σ)
    (creds : Creds) (w : World Creds Ctx Auth H P B C σ) :
    (Option Auth × Option Err) × World Creds Ctx Auth H P B C σ :=
  let r := env.GetResourceManagementAuthorizer creds w.state
  (r.1, { state := r.2, trace := w.trace ++ [Event.GetResourceManagementAuthorizer creds] })

/-- A call `client.Create(ctx, rg, account, container, blobContainer)`, recorded. -/
def callCreate (env : Env Creds Ctx Auth Err H P B C σ)
    (client : BlobContainersClient Auth C) (ctx : Ctx)
    (resourceGroupName accountName containerName : String)
    (blobContainer : BlobContainer H P B) (w : World Creds Ctx Auth H P B C σ) :
    (BlobContainer H P B × Option Err) × World Creds Ctx Auth H P B C σ :=
  let r := env.Create client ctx resourceGroupName accountName containerName blobContainer w.state
  (r.1, { state := r.2,
          trace := w.trace ++
            [Event.Create client ctx resourceGroupName accountName containerName blobContainer] })

/-- A call `client.Get(ctx, rg, account, container)`, recorded. -/
def callGet (env : Env Creds Ctx Auth Err H P B C σ)
    (client : BlobContainersClient Auth C) (ctx : Ctx)
    (resourceGroupName accountName containerName : String)
    (w : World Creds Ctx Auth H P B C σ) :
    (BlobContainer H P B × Option Err) × World Creds Ctx Auth H P B C σ :=
  let r := env.Get client ctx resourceGroupName accountName containerName w.state
  (r.1, { state := r.2,
          trace := w.trace ++ [Event.Get client ctx resourceGroupName accountName containerName] })

/-- A call `client.Delete(ctx, rg, account, container)`, recorded. -/
def callDelete (env : Env Creds Ctx Auth Err H P B C σ)
    (client : BlobContainersClient Auth C) (ctx : Ctx)
    (resourceGroupName accountName containerName : String)
    (w : World Creds Ctx Auth H P B C σ) :
    (autorest.Response H × Option Err) × World Creds Ctx Auth H P B C σ :=
  let r := env.Delete client ctx resourceGroupName accountName containerName w.state
  (r.1, { state := r.2,
          trace := w.trace ++ [Event.Delete client ctx resourceGroupName accountName containerName] })

/-- Go `getContainerClient(creds)`. -/
def getContainerClient [Zero C] (env : Env Creds Ctx Auth Err H P B C σ) (creds : Creds)
    (w : World Creds Ctx Auth H P B C σ) :
    (BlobContainersClient Auth C × Option Err) × World Creds Ctx Auth H P B C σ :=
  let containersClient :=
    env.NewBlobContainersClientWithBaseURI env.BaseURI (env.SubscriptionID creds)
  match callGetResourceManagementAuthorizer env creds w with
  | ((auth, err), w1) =>
    if err.isSome then
      ((0, err), w1)
    else
      let containersClient := { containersClient with Authorizer := auth }
      let containersClient := env.AddToUserAgent containersClient env.UserAgent
      ((containersClient, none), w1)

/-- Go `(*AzureBlobContainerManager).CreateBlobContainer`. -/
def CreateBlobContainer [Zero C] [Zero P] [Zero B] (env : Env Creds Ctx Auth Err H P B C σ)
    (m : AzureBlobContainerManager Creds) (ctx : Ctx)
    (resourceGroupName accountName containerName : String) (accessLevel : PublicAccess)
    (w : World Creds Ctx Auth H P B C σ) :
    (Option (BlobContainer H P B) × Option Err) × World Creds Ctx Auth H P B C σ :=
  match getContainerClient env m.creds w with
  | ((containerClient, err), w1) =>
    if err.isSome then
      ((none, err), w1)
    else
      let blobContainerProperties : ContainerProperties P :=
        { (0 : ContainerProperties P) with PublicAccess := accessLevel }
      match callCreate env containerClient ctx resourceGroupName accountName containerName
          { (0 : BlobContainer H P B) with ContainerProperties := some blobContainerProperties }
          w1 with
      | ((container, err), w2) =>
        if err.isSome then
          ((none, err), w2)
        else
          ((some container, err), w2)

/-- Go `(*AzureBlobContainerManager).GetBlobContainer`. -/
def GetBlobContainer [Zero C] [Zero B] (env : Env Creds Ctx Auth Err H P B C σ)
    (m : AzureBlobContainerManager Creds) (ctx : Ctx)
    (resourceGroupName accountName containerName : String)
    (w : World Creds Ctx Auth H P B C σ) :
    (BlobContainer H P B × Option Err) × World Creds Ctx Auth H P B C σ :=
  match getContainerClient env m.creds w with
  | ((containerClient, err), w1) =>
    if err.isSome then
      ((0, err), w1)
    else
      callGet env containerClient ctx resourceGroupName accountName containerName w1

/-- Go `(*AzureBlobContainerManager).DeleteBlobContainer`. -/
def DeleteBlobContainer [Zero C] [Zero H] (env : Env Creds Ctx Auth Err H P B C σ)
    (m : AzureBlobContainerManager Creds) (ctx : Ctx)
    (resourceGroupName accountName containerName : String)
    (w : World Creds Ctx Auth H P B C σ) :
    (autorest.Response H × Option Err) × World Creds Ctx Auth H P B C σ :=
  match getContainerClient env m.creds w with
  | ((containerClient, err), w1) =>
    if err.isSome then
      (({ Response := some { (0 : http.Response H) with StatusCode := 500 } }, err), w1)
    else
      callDelete env containerClient ctx resourceGroupName accountName containerName w1

end Operations

/-! ## A concrete environment for the scenarios -/

/-- A concrete SDK client constructor: sets the base URI and the subscription ID
and starts from a fixed SDK user agent. -/
def mockNewClient (baseURI subscriptionID : String) : BlobContainersClient String Nat :=
  { BaseURI := baseURI, SubscriptionID := subscriptionID, Authorizer := none,
    UserAgent := "Azure-SDK-For-Go", other := 0 }

/-- A concrete SDK user-agent extension: appends the extension after a blank. -/
def mockAddToUserAgent (c : BlobContainersClient String Nat) (extension : String) :
    BlobContainersClient String Nat :=
  { c with UserAgent := c.UserAgent ++ " " ++ extension }

/-- A mock environment: credentials are the subscription ID, the context is a
number, the hidden state counts the calls made to the stateful collaborators,
and the authorization collaborator and the three remote operations return the
fixed results given as arguments. -/
def mockEnv (auth : Option String × Option String)
    (create get : BlobContainer Nat Nat Nat × Option String)
    (delete : autorest.Response Nat × Option String) :
    Env String Nat String String Nat Nat Nat Nat Nat :=
  { BaseURI := "https://management.azure.com/"
    UserAgent := "azure-service-operator"
    SubscriptionID := fun creds => creds
    NewBlobContainersClientWithBaseURI := mockNewClient
    AddToUserAgent := mockAddToUserAgent
    GetResourceManagementAuthorizer := fun _ s => (auth, s + 1)
    Create := fun _ _ _ _ _ _ s => (create, s + 1)
    Get := fun _ _ _ _ _ s => (get, s + 1)
    Delete := fun _ _ _ _ _ s => (delete, s + 1) }

/-- The mock manager, holding the subscription `sub-1` as credentials. -/
def mockManager : AzureBlobContainerManager String := { creds := "sub-1" }

/-- The container `c1` with access level `PublicAccessNone`. -/
def containerC1 : BlobContainer Nat Nat Nat :=
  { Response := 0
    ContainerProperties := some { PublicAccess := PublicAccessNone, other := 0 }
    Name := some "c1"
    other := 0 }

/-- A response with the given status code. -/
def responseWithStatus (code : Int) : autorest.Response Nat :=
  { Response := some { StatusCode := code, other := 0 } }

/-- A result carrying only an HTTP 404 response, as returned alongside a
not-found error. -/
def notFoundResult : BlobContainer Nat Nat Nat :=
  { Response := responseWithStatus 404, ContainerProperties := none, Name := none, other := 0 }

/-- The environment whose authorization collaborator fails with `unauthorized`. -/
def mockEnvAuthFails : Env String Nat String String Nat Nat Nat Nat Nat :=
  mockEnv (none, some "unauthorized") (containerC1, none) (containerC1, none)
    (responseWithStatus 200, none)

/-- The environment in which authorization and every remote call succeed. -/
def mockEnvOk : Env String Nat String String Nat Nat Nat Nat Nat :=
  mockEnv (some "token", none) (containerC1, none) (containerC1, none)
    (responseWithStatus 200, none)

/-- The environment in which authorization succeeds and every remote call fails,
each returning a non-zero result value alongside its error. -/
def mockEnvRemoteFails : Env String Nat String String Nat Nat Nat Nat Nat :=
  mockEnv (some "token", none) (notFoundResult, some "conflict")
    (notFoundResult, some "not found") (responseWithStatus 404, some "not found")

/-! ## The contract assumed of the SDK client functions -/

/-- The contract of the two SDK client functions: the constructor stores the
base URI and the subscription ID it is given, and extending the user agent
leaves base URI, subscription ID and authorizer as they are. -/
def SDKContract {Creds Ctx Auth Err H P B C σ : Type}
    (env : Env Creds Ctx Auth Err H P B C σ) : Prop :=
  (∀ baseURI subscriptionID : String,
    (env.NewBlobContainersClientWithBaseURI baseURI subscriptionID).BaseURI = baseURI ∧
    (env.NewBlobContainersClientWithBaseURI baseURI subscriptionID).SubscriptionID
      = subscriptionID) ∧
  (∀ (c : BlobContainersClient Auth C) (extension : String),
    (env.AddToUserAgent c extension).BaseURI = c.BaseURI ∧
    (env.AddToUserAgent c extension).SubscriptionID = c.SubscriptionID ∧
    (env.AddToUserAgent c extension).Authorizer = c.Authorizer)

/-! ## Theorems -/

section Lemmas

variable {Creds Ctx Auth Err H P B C σ : Type}

theorem getContainerClient_world [Zero C] (env : Env Creds Ctx Auth Err H P B C σ) (creds : Creds)
    (w : World Creds Ctx Auth H P B C σ) :
    (getContainerClient env creds w).2 =
      { state := (env.GetResourceManagementAuthorizer creds w.state).2,
        trace := w.trace ++ [Event.GetResourceManagementAuthorizer creds] } := by
  unfold getContainerClient callGetResourceManagementAuthorizer
  dsimp only
  split <;> rfl

theorem getContainerClient_err [Zero C] (env : Env Creds Ctx Auth Err H P B C σ) (creds : Creds)
    (w : World Creds Ctx Auth H P B C σ) :
    (getContainerClient env creds w).1.2 =
      (env.GetResourceManagementAuthorizer creds w.state).1.2 := by
  unfold getContainerClient callGetResourceManagementAuthorizer
  dsimp only
  split
  · rfl
  · rename_i h
    simp at h
    exact h.symm

@[simp] theorem zero_container_Response [Zero B] :
    (0 : BlobContainer H P B).Response = 0 := rfl

@[simp] theorem zero_container_ContainerProperties [Zero B] :
    (0 : BlobContainer H P B).ContainerProperties = none := rfl

@[simp] theorem zero_container_Name [Zero B] : (0 : BlobContainer H P B).Name = none := rfl

@[simp] theorem zero_container_other [Zero B] : (0 : BlobContainer H P B).other = 0 := rfl

@[simp] theorem zero_properties_other [Zero P] : (0 : ContainerProperties P).other = 0 := rfl

@[simp] theorem zero_response_Response : (0 : autorest.Response H).Response = none := rfl

@[simp] theorem zero_http_other [Zero H] : (0 : http.Response H).other = 0 := rfl

theorem CreateBlobContainer_client_error [Zero C] [Zero P] [Zero B]
    (env : Env Creds Ctx Auth Err H P B C σ) (m : AzureBlobContainerManager Creds) (ctx : Ctx)
    (rg acct name : String) (a : PublicAccess) (w : World Creds Ctx Auth H P B C σ) (e : Err)
    (h : (getContainerClient env m.creds w).1.2 = some e) :
    CreateBlobContainer env m ctx rg acct name a w =
      ((none, some e), (getContainerClient env m.creds w).2) := by
  unfold CreateBlobContainer
  simp [h]

theorem GetBlobContainer_client_error [Zero C] [Zero B]
    (env : Env Creds Ctx Auth Err H P B C σ) (m : AzureBlobContainerManager Creds) (ctx : Ctx)
    (rg acct name : String) (w : World Creds Ctx Auth H P B C σ) (e : Err)
    (h : (getContainerClient env m.creds w).1.2 = some e) :
    GetBlobContainer env m ctx rg acct name w =
      ((0, some e), (getContainerClient env m.creds w).2) := by
  unfold GetBlobContainer
  simp [h]

theorem DeleteBlobContainer_client_error [Zero C] [Zero H]
    (env : Env Creds Ctx Auth Err H P B C σ) (m : AzureBlobContainerManager Creds) (ctx : Ctx)
    (rg acct name : String) (w : World Creds Ctx Auth H P B C σ) (e : Err)
    (h : (getContainerClient env m.creds w).1.2 = some e) :
    DeleteBlobContainer env m ctx rg acct name w =
      (({ Response := some { StatusCode := 500, other := 0 } }, some e),
        (getContainerClient env m.creds w).2) := by
  unfold DeleteBlobContainer
  simp [h]

theorem CreateBlobContainer_client_ok [Zero C] [Zero P] [Zero B]
    (env : Env Creds Ctx Auth Err H P B C σ) (m : AzureBlobContainerManager Creds) (ctx : Ctx)
    (rg acct name : String) (a : PublicAccess) (w : World Creds Ctx Auth H P B C σ)
    (h : (getContainerClient env m.creds w).1.2 = none) :
    CreateBlobContainer env m ctx rg acct name a w =
      if (env.Create (getContainerClient env m.creds w).1.1 ctx rg acct name
            { Response := 0, ContainerProperties := some { PublicAccess := a, other := 0 },
              Name := none, other := 0 }
            (getContainerClient env m.creds w).2.state).1.2.isSome then
        ((none, (env.Create (getContainerClient env m.creds w).1.1 ctx rg acct name
            { Response := 0, ContainerProperties := some { PublicAccess := a, other := 0 },
              Name := none, other := 0 }
            (getContainerClient env m.creds w).2.state).1.2),
         (callCreate env (getContainerClient env m.creds w).1.1 ctx rg acct name
            { Response := 0, ContainerProperties := some { PublicAccess := a, other := 0 },
              Name := none, other := 0 }
            (getContainerClient env m.creds w).2).2)
      else
        ((some (env.Create (getContainerClient env m.creds w).1.1 ctx rg acct name
            { Response := 0, ContainerProperties := some { PublicAccess := a, other := 0 },
              Name := none, other := 0 }
            (getContainerClient env m.creds w).2.state).1.1, none),
         (callCreate env (getContainerClient env m.creds w).1.1 ctx rg acct name
            { Response := 0, ContainerProperties := some { PublicAccess := a, other := 0 },
              Name := none, other := 0 }
            (getContainerClient env m.creds w).2).2) := by
  unfold CreateBlobContainer
  simp only [h, Option.isSome_none, Bool.false_eq_true, if_false]
  unfold callCreate
  simp only [zero_container_Response, zero_container_Name, zero_container_other,
    zero_properties_other]
  split
  · rfl
  · rename_i hn
    simp only [Bool.not_eq_true, Option.not_isSome, Option.isNone_iff_eq_none] at hn
    rw [hn]

theorem GetBlobContainer_client_ok [Zero C] [Zero B]
    (env : Env Creds Ctx Auth Err H P B C σ) (m : AzureBlobContainerManager Creds) (ctx : Ctx)
    (rg acct name : String) (w : World Creds Ctx Auth H P B C σ)
    (h : (getContainerClient env m.creds w).1.2 = none) :
    GetBlobContainer env m ctx rg acct name w =
      callGet env (getContainerClient env m.creds w).1.1 ctx rg acct name
        (getContainerClient env m.creds w).2 := by
  unfold GetBlobContainer
  simp [h]

theorem DeleteBlobContainer_client_ok [Zero C] [Zero H]
    (env : Env Creds Ctx Auth Err H P B C σ) (m : AzureBlobContainerManager Creds) (ctx : Ctx)
    (rg acct name : String) (w : World Creds Ctx Auth H P B C σ)
    (h : (getContainerClient env m.creds w).1.2 = none) :
    DeleteBlobContainer env m ctx rg acct name w =
      callDelete env (getContainerClient env m.creds w).1.1 ctx rg acct name
        (getContainerClient env m.creds w).2 := by
  unfold DeleteBlobContainer
  simp [h]

theorem getContainerClient_trace_init [Zero C] (env : Env Creds Ctx Auth Err H P B C σ)
    (creds : Creds) (s : σ) :
    (getContainerClient env creds (World.init s)).2.trace =
      [Event.GetResourceManagementAuthorizer creds] := by
  rw [getContainerClient_world]
  rfl

end Lemmas

section Claims

variable {Creds Ctx Auth Err H P B C σ : Type}

/-- C1: when the authorization collaborator fails with error `e`, each of
`CreateBlobContainer`, `GetBlobContainer` and `DeleteBlobContainer` returns
exactly the error `e`, and the trace recorded from a fresh world holds no remote
call (no Create, Get or Delete). -/
theorem authorizer_failure_returns_error_without_remote_call
    [Zero C] [Zero P] [Zero B] [Zero H]
    (env : Env Creds Ctx Auth Err H P B C σ) (m : AzureBlobContainerManager Creds) (ctx : Ctx)
    (resourceGroupName accountName containerName : String) (accessLevel : PublicAccess)
    (s : σ) (e : Err)
    (h : (env.GetResourceManagementAuthorizer m.creds s).1.2 = some e) :
    ((CreateBlobContainer env m ctx resourceGroupName accountName containerName accessLevel
        (World.init s)).1.2 = some e ∧
      remoteCalls (CreateBlobContainer env m ctx resourceGroupName accountName containerName
        accessLevel (World.init s)).2.trace = []) ∧
    ((GetBlobContainer env m ctx resourceGroupName accountName containerName
        (World.init s)).1.2 = some e ∧
      remoteCalls (GetBlobContainer env m ctx resourceGroupName accountName containerName
        (World.init s)).2.trace = []) ∧
    ((DeleteBlobContainer env m ctx resourceGroupName accountName containerName
        (World.init s)).1.2 = some e ∧
      remoteCalls (DeleteBlobContainer env m ctx resourceGroupName accountName containerName
        (World.init s)).2.trace = []) := by
  have h1 := getContainerClient_err env m.creds (World.init s)
  have h2 := getContainerClient_trace_init env m.creds s
  rw [show (World.init s : World Creds Ctx Auth H P B C σ).state = s from rfl, h] at h1
  refine ⟨?_, ?_, ?_⟩
  · rw [CreateBlobContainer_client_error env m ctx _ _ _ _ _ e h1]
    simp [h2, remoteCalls, Event.isRemote]
  · rw [GetBlobContainer_client_error env m ctx _ _ _ _ e h1]
    simp [h2, remoteCalls, Event.isRemote]
  · rw [DeleteBlobContainer_client_error env m ctx _ _ _ _ e h1]
    simp [h2, remoteCalls, Event.isRemote]

/-- Witness of C1 on the mock environment whose authorizer fails. -/
theorem authorizer_failure_witness :
    (mockEnvAuthFails.GetResourceManagementAuthorizer mockManager.creds 0).1.2
        = some "unauthorized" ∧
    (DeleteBlobContainer mockEnvAuthFails mockManager 7 "rg1" "acct1" "c1"
        (World.init 0)).1.2 = some "unauthorized" ∧
    remoteCalls (DeleteBlobContainer mockEnvAuthFails mockManager 7 "rg1" "acct1" "c1"
        (World.init 0)).2.trace = [] :=
  ⟨rfl,
   (authorizer_failure_returns_error_without_remote_call mockEnvAuthFails mockManager 7
      "rg1" "acct1" "c1" PublicAccessNone 0 "unauthorized" rfl).2.2⟩

/-- C2: when client construction fails with error `e`, `DeleteBlobContainer`
returns a response whose inner HTTP response is present and has status code
exactly 500 (every other field of it zero), together with the error `e`. -/
theorem delete_client_failure_returns_status_500 [Zero C] [Zero H]
    (env : Env Creds Ctx Auth Err H P B C σ) (m : AzureBlobContainerManager Creds) (ctx : Ctx)
    (resourceGroupName accountName containerName : String)
    (w : World Creds Ctx Auth H P B C σ) (e : Err)
    (h : (getContainerClient env m.creds w).1.2 = some e) :
    (∃ r : http.Response H,
      (DeleteBlobContainer env m ctx resourceGroupName accountName containerName
        w).1.1.Response = some r ∧ r.StatusCode = 500 ∧ r.other = 0) ∧
    (DeleteBlobContainer env m ctx resourceGroupName accountName containerName w).1.2
      = some e := by
  rw [DeleteBlobContainer_client_error env m ctx _ _ _ w e h]
  exact ⟨⟨_, rfl, rfl, rfl⟩, rfl⟩

/-- Witness of C2 on the mock environment whose authorizer fails. -/
theorem delete_client_failure_witness :
    (getContainerClient mockEnvAuthFails mockManager.creds (World.init 0)).1.2
        = some "unauthorized" ∧
    ((∃ r : http.Response Nat,
      (DeleteBlobContainer mockEnvAuthFails mockManager 7 "rg1" "acct1" "c1"
        (World.init 0)).1.1.Response = some r ∧ r.StatusCode = 500 ∧ r.other = 0) ∧
    (DeleteBlobContainer mockEnvAuthFails mockManager 7 "rg1" "acct1" "c1" (World.init 0)).1.2
        = some "unauthorized") :=
  ⟨rfl,
   delete_client_failure_returns_status_500 mockEnvAuthFails mockManager 7
      "rg1" "acct1" "c1" (World.init 0) "unauthorized" rfl⟩

/-- C3: when client construction fails with error `e`, `CreateBlobContainer`
returns the nil pointer with `e`, and `GetBlobContainer` returns the zero-value
`BlobContainer` (no response, no properties, no name, the other fields zero)
with `e`. -/
theorem create_get_client_failure_return_zero_result [Zero C] [Zero P] [Zero B]
    (env : Env Creds Ctx Auth Err H P B C σ) (m : AzureBlobContainerManager Creds) (ctx : Ctx)
    (resourceGroupName accountName containerName : String) (accessLevel : PublicAccess)
    (w : World Creds Ctx Auth H P B C σ) (e : Err)
    (h : (getContainerClient env m.creds w).1.2 = some e) :
    (CreateBlobContainer env m ctx resourceGroupName accountName containerName accessLevel w).1
      = (none, some e) ∧
    (GetBlobContainer env m ctx resourceGroupName accountName containerName w).1
      = (0, some e) ∧
    (GetBlobContainer env m ctx resourceGroupName accountName containerName
      w).1.1.Response.Response = none ∧
    (GetBlobContainer env m ctx resourceGroupName accountName containerName
      w).1.1.ContainerProperties = none ∧
    (GetBlobContainer env m ctx resourceGroupName accountName containerName w).1.1.Name = none ∧
    (GetBlobContainer env m ctx resourceGroupName accountName containerName w).1.1.other = 0 := by
  rw [CreateBlobContainer_client_error env m ctx _ _ _ _ w e h,
    GetBlobContainer_client_error env m ctx _ _ _ w e h]
  exact ⟨rfl, rfl, rfl, rfl, rfl, rfl⟩

/-- Witness of C3 on the mock environment whose authorizer fails. -/
theorem create_get_client_failure_witness :
    (getContainerClient mockEnvAuthFails mockManager.creds (World.init 0)).1.2
        = some "unauthorized" ∧
    (CreateBlobContainer mockEnvAuthFails mockManager 7 "rg1" "acct1" "c1" PublicAccessBlob
        (World.init 0)).1 = (none, some "unauthorized") ∧
    (GetBlobContainer mockEnvAuthFails mockManager 7 "rg1" "acct1" "c1" (World.init 0)).1
        = (0, some "unauthorized") :=
  ⟨rfl,
   (create_get_client_failure_return_zero_result mockEnvAuthFails mockManager 7
      "rg1" "acct1" "c1" PublicAccessBlob (World.init 0) "unauthorized" rfl).1,
   (create_get_client_failure_return_zero_result mockEnvAuthFails mockManager 7
      "rg1" "acct1" "c1" PublicAccessBlob (World.init 0) "unauthorized" rfl).2.1⟩

/-- C4: when client construction succeeds and the remote call returns a value `r`
with a nil error, the operation returns `r` unmodified with a nil error:
`CreateBlobContainer` a non-nil pointer to `r`, `GetBlobContainer` the value `r`,
`DeleteBlobContainer` the response `r`. -/
theorem remote_success_returned_unmodified [Zero C] [Zero P] [Zero B] [Zero H]
    (env : Env Creds Ctx Auth Err H P B C σ) (m : AzureBlobContainerManager Creds) (ctx : Ctx)
    (resourceGroupName accountName containerName : String) (accessLevel : PublicAccess)
    (w : World Creds Ctx Auth H P B C σ)
    (h : (getContainerClient env m.creds w).1.2 = none) :
    (∀ r : BlobContainer H P B,
      (env.Create (getContainerClient env m.creds w).1.1 ctx resourceGroupName accountName
        containerName
        { Response := 0, ContainerProperties := some { PublicAccess := accessLevel, other := 0 },
          Name := none, other := 0 }
        (getContainerClient env m.creds w).2.state).1 = (r, none) →
      (CreateBlobContainer env m ctx resourceGroupName accountName containerName accessLevel
        w).1 = (some r, none)) ∧
    (∀ r : BlobContainer H P B,
      (env.Get (getContainerClient env m.creds w).1.1 ctx resourceGroupName accountName
        containerName (getContainerClient env m.creds w).2.state).1 = (r, none) →
      (GetBlobContainer env m ctx resourceGroupName accountName containerName w).1
        = (r, none)) ∧
    (∀ r : autorest.Response H,
      (env.Delete (getContainerClient env m.creds w).1.1 ctx resourceGroupName accountName
        containerName (getContainerClient env m.creds w).2.state).1 = (r, none) →
      (DeleteBlobContainer env m ctx resourceGroupName accountName containerName w).1
        = (r, none)) := by
  refine ⟨?_, ?_, ?_⟩
  · intro r hr
    rw [CreateBlobContainer_client_ok env m ctx _ _ _ _ w h, hr]
    rfl
  · intro r hr
    rw [GetBlobContainer_client_ok env m ctx _ _ _ w h]
    exact hr
  · intro r hr
    rw [DeleteBlobContainer_client_ok env m ctx _ _ _ w h]
    exact hr

/-- Witness of C4, the scenario of the specification: creating `c1` in `rg1`,
`acct1` with `PublicAccessNone` against a remote that returns the container
`c1` with `PublicAccessNone` returns that exact container and no error. -/
theorem create_scenario_witness :
    (getContainerClient mockEnvOk mockManager.creds (World.init 0)).1.2 = none ∧
    (CreateBlobContainer mockEnvOk mockManager 7 "rg1" "acct1" "c1" PublicAccessNone
        (World.init 0)).1 =
      (some { Response := 0,
              ContainerProperties := some { PublicAccess := PublicAccessNone, other := 0 },
              Name := some "c1", other := 0 }, none) :=
  ⟨rfl,
   (remote_success_returned_unmodified mockEnvOk mockManager 7 "rg1" "acct1" "c1"
      PublicAccessNone (World.init 0) rfl).1 containerC1 rfl⟩

/-- C5: when client construction succeeds and the remote call fails with error
`e`, each of the three operations returns exactly the error `e`, which is not
the nil error. -/
theorem remote_error_returned_unmodified [Zero C] [Zero P] [Zero B] [Zero H]
    (env : Env Creds Ctx Auth Err H P B C σ) (m : AzureBlobContainerManager Creds) (ctx : Ctx)
    (resourceGroupName accountName containerName : String) (accessLevel : PublicAccess)
    (w : World Creds Ctx Auth H P B C σ) (e : Err)
    (h : (getContainerClient env m.creds w).1.2 = none) :
    ((env.Create (getContainerClient env m.creds w).1.1 ctx resourceGroupName accountName
        containerName
        { Response := 0, ContainerProperties := some { PublicAccess := accessLevel, other := 0 },
          Name := none, other := 0 }
        (getContainerClient env m.creds w).2.state).1.2 = some e →
      (CreateBlobContainer env m ctx resourceGroupName accountName containerName accessLevel
        w).1.2 = some e ∧
      (CreateBlobContainer env m ctx resourceGroupName accountName containerName accessLevel
        w).1.2 ≠ none) ∧
    ((env.Get (getContainerClient env m.creds w).1.1 ctx resourceGroupName accountName
        containerName (getContainerClient env m.creds w).2.state).1.2 = some e →
      (GetBlobContainer env m ctx resourceGroupName accountName containerName w).1.2
        = some e ∧
      (GetBlobContainer env m ctx resourceGroupName accountName containerName w).1.2
        ≠ none) ∧
    ((env.Delete (getContainerClient env m.creds w).1.1 ctx resourceGroupName accountName
        containerName (getContainerClient env m.creds w).2.state).1.2 = some e →
      (DeleteBlobContainer env m ctx resourceGroupName accountName containerName w).1.2
        = some e ∧
      (DeleteBlobContainer env m ctx resourceGroupName accountName containerName w).1.2
        ≠ none) := by
  refine ⟨?_, ?_, ?_⟩
  · intro hr
    rw [CreateBlobContainer_client_ok env m ctx _ _ _ _ w h, hr]
    simp
  · intro hr
    rw [GetBlobContainer_client_ok env m ctx _ _ _ w h]
    have : (callGet env (getContainerClient env m.creds w).1.1 ctx resourceGroupName
        accountName containerName (getContainerClient env m.creds w).2).1.2 = some e := hr
    simp [this]
  · intro hr
    rw [DeleteBlobContainer_client_ok env m ctx _ _ _ w h]
    have : (callDelete env (getContainerClient env m.creds w).1.1 ctx resourceGroupName
        accountName containerName (getContainerClient env m.creds w).2).1.2 = some e := hr
    simp [this]

/-- Witness of C5 on the mock environment whose remote calls fail. -/
theorem remote_error_witness :
    (getContainerClient mockEnvRemoteFails mockManager.creds (World.init 0)).1.2 = none ∧
    (CreateBlobContainer mockEnvRemoteFails mockManager 7 "rg1" "acct1" "c1" PublicAccessNone
        (World.init 0)).1.2 = some "conflict" ∧
    (GetBlobContainer mockEnvRemoteFails mockManager 7 "rg1" "acct1" "c1"
        (World.init 0)).1.2 = some "not found" ∧
    (DeleteBlobContainer mockEnvRemoteFails mockManager 7 "rg1" "acct1" "c1"
        (World.init 0)).1.2 = some "not found" :=
  ⟨rfl,
   ((remote_error_returned_unmodified mockEnvRemoteFails mockManager 7 "rg1" "acct1" "c1"
      PublicAccessNone (World.init 0) "conflict" rfl).1 rfl).1,
   ((remote_error_returned_unmodified mockEnvRemoteFails mockManager 7 "rg1" "acct1" "c1"
      PublicAccessNone (World.init 0) "not found" rfl).2.1 rfl).1,
   ((remote_error_returned_unmodified mockEnvRemoteFails mockManager 7 "rg1" "acct1" "c1"
      PublicAccessNone (World.init 0) "not found" rfl).2.2 rfl).1⟩

/-- C6 as stated fails: with a successful client construction and a remote Get
that returns a not-found error alongside a result carrying the HTTP 404
response, `GetBlobContainer(ctx, "rg1", "acct1", "missing")` returns that error
together with that non-zero result, not a zero-valued one. -/
theorem get_remote_error_result_not_zeroed :
    (getContainerClient mockEnvRemoteFails mockManager.creds (World.init 0)).1.2 = none ∧
    (mockEnvRemoteFails.Get
        (getContainerClient mockEnvRemoteFails mockManager.creds (World.init 0)).1.1
        7 "rg1" "acct1" "missing"
        (getContainerClient mockEnvRemoteFails mockManager.creds (World.init 0)).2.state).1
      = (notFoundResult, some "not found") ∧
    (GetBlobContainer mockEnvRemoteFails mockManager 7 "rg1" "acct1" "missing"
        (World.init 0)).1 = (notFoundResult, some "not found") ∧
    (GetBlobContainer mockEnvRemoteFails mockManager 7 "rg1" "acct1" "missing"
        (World.init 0)).1.1 ≠ 0 := by
  refine ⟨rfl, rfl, rfl, ?_⟩
  intro h
  have h2 := congrArg (fun c => c.Response.Response) h
  simp [GetBlobContainer, getContainerClient, callGetResourceManagementAuthorizer, callGet,
    mockEnvRemoteFails, mockEnv, notFoundResult, responseWithStatus] at h2

/-- C6 amended: when client construction succeeds and the remote Get call
returns an error `e` alongside a result `r`, `GetBlobContainer` returns `e`
together with exactly `r`; the result is zero-valued exactly when `r` is. -/
theorem get_remote_error_returns_remote_result [Zero C] [Zero B]
    (env : Env Creds Ctx Auth Err H P B C σ) (m : AzureBlobContainerManager Creds) (ctx : Ctx)
    (resourceGroupName accountName containerName : String)
    (w : World Creds Ctx Auth H P B C σ) (r : BlobContainer H P B) (e : Err)
    (h : (getContainerClient env m.creds w).1.2 = none)
    (hr : (env.Get (getContainerClient env m.creds w).1.1 ctx resourceGroupName accountName
        containerName (getContainerClient env m.creds w).2.state).1 = (r, some e)) :
    (GetBlobContainer env m ctx resourceGroupName accountName containerName w).1
      = (r, some e) ∧
    ((GetBlobContainer env m ctx resourceGroupName accountName containerName w).1.1 = 0
      ↔ r = 0) := by
  rw [GetBlobContainer_client_ok env m ctx _ _ _ w h]
  have : (callGet env (getContainerClient env m.creds w).1.1 ctx resourceGroupName
      accountName containerName (getContainerClient env m.creds w).2).1 = (r, some e) := hr
  rw [this]
  exact ⟨rfl, Iff.rfl⟩

/-- Witness of the amended C6: the not-found scenario against a remote that
returns a zero-valued result alongside the error. -/
theorem get_remote_error_witness :
    (getContainerClient
        (mockEnv (some "token", none) (0, none) (0, some "not found") (0, none))
        mockManager.creds (World.init 0)).1.2 = none ∧
    (GetBlobContainer
        (mockEnv (some "token", none) (0, none) (0, some "not found") (0, none))
        mockManager 7 "rg1" "acct1" "missing" (World.init 0)).1 = (0, some "not found") :=
  ⟨rfl,
   (get_remote_error_returns_remote_result
      (mockEnv (some "token", none) (0, none) (0, some "not found") (0, none))
      mockManager 7 "rg1" "acct1" "missing" (World.init 0) 0 "not found" rfl rfl).1⟩

/-- C7: when client construction succeeds, the only remote call of
`CreateBlobContainer` is one Create whose container descriptor has a non-nil
`ContainerProperties` with `PublicAccess` equal to the supplied access level,
every other field of the properties and of the descriptor being zero. -/
theorem create_payload_carries_access_level [Zero C] [Zero P] [Zero B]
    (env : Env Creds Ctx Auth Err H P B C σ) (m : AzureBlobContainerManager Creds) (ctx : Ctx)
    (resourceGroupName accountName containerName : String) (accessLevel : PublicAccess)
    (s : σ)
    (h : (getContainerClient env m.creds (World.init s)).1.2 = none) :
    ∃ (client : BlobContainersClient Auth C) (payload : BlobContainer H P B)
      (properties : ContainerProperties P),
      remoteCalls (CreateBlobContainer env m ctx resourceGroupName accountName containerName
          accessLevel (World.init s)).2.trace
        = [Event.Create client ctx resourceGroupName accountName containerName payload] ∧
      payload.ContainerProperties = some properties ∧
      properties.PublicAccess = accessLevel ∧
      properties.other = 0 ∧
      payload.Response.Response = none ∧
      payload.Name = none ∧
      payload.other = 0 := by
  refine ⟨(getContainerClient env m.creds (World.init s)).1.1,
    { Response := 0, ContainerProperties := some { PublicAccess := accessLevel, other := 0 },
      Name := none, other := 0 },
    { PublicAccess := accessLevel, other := 0 }, ?_, rfl, rfl, rfl, rfl, rfl, rfl⟩
  rw [CreateBlobContainer_client_ok env m ctx _ _ _ _ _ h]
  split <;>
    simp [callCreate, getContainerClient_trace_init, remoteCalls, Event.isRemote]

/-- Witness of C7 on the mock environment, for each of the three access levels. -/
theorem create_payload_witness :
    (getContainerClient mockEnvOk mockManager.creds (World.init 0)).1.2 = none ∧
    (∃ (client : BlobContainersClient String Nat) (payload : BlobContainer Nat Nat Nat)
        (properties : ContainerProperties Nat),
        remoteCalls (CreateBlobContainer mockEnvOk mockManager 7 "rg1" "acct1" "c1"
            PublicAccessContainer (World.init 0)).2.trace
          = [Event.Create client 7 "rg1" "acct1" "c1" payload] ∧
        payload.ContainerProperties = some properties ∧
        properties.PublicAccess = PublicAccessContainer ∧
        properties.other = 0 ∧
        payload.Response.Response = none ∧
        payload.Name = none ∧
        payload.other = 0) ∧
    (∃ (client : BlobContainersClient String Nat) (payload : BlobContainer Nat Nat Nat)
        (properties : ContainerProperties Nat),
        remoteCalls (CreateBlobContainer mockEnvOk mockManager 7 "rg1" "acct1" "c1"
            PublicAccessBlob (World.init 0)).2.trace
          = [Event.Create client 7 "rg1" "acct1" "c1" payload] ∧
        payload.ContainerProperties = some properties ∧
        properties.PublicAccess = PublicAccessBlob ∧
        properties.other = 0 ∧
        payload.Response.Response = none ∧
        payload.Name = none ∧
        payload.other = 0) ∧
    (∃ (client : BlobContainersClient String Nat) (payload : BlobContainer Nat Nat Nat)
        (properties : ContainerProperties Nat),
        remoteCalls (CreateBlobContainer mockEnvOk mockManager 7 "rg1" "acct1" "c1"
            PublicAccessNone (World.init 0)).2.trace
          = [Event.Create client 7 "rg1" "acct1" "c1" payload] ∧
        payload.ContainerProperties = some properties ∧
        properties.PublicAccess = PublicAccessNone ∧
        properties.other = 0 ∧
        payload.Response.Response = none ∧
        payload.Name = none ∧
        payload.other = 0) :=
  ⟨rfl,
   create_payload_carries_access_level mockEnvOk mockManager 7 "rg1" "acct1" "c1"
      PublicAccessContainer 0 rfl,
   create_payload_carries_access_level mockEnvOk mockManager 7 "rg1" "acct1" "c1"
      PublicAccessBlob 0 rfl,
   create_payload_carries_access_level mockEnvOk mockManager 7 "rg1" "acct1" "c1"
      PublicAccessNone 0 rfl⟩

/-- C8: when client construction succeeds, each operation, run from a fresh
world, records exactly two calls: one call of the authorization collaborator
with the credentials of the manager, then one remote request of its own kind
(Create, Get, Delete) with the same context and the same three strings in the
same order. -/
theorem one_authorizer_call_then_one_remote_call [Zero C] [Zero P] [Zero B] [Zero H]
    (env : Env Creds Ctx Auth Err H P B C σ) (m : AzureBlobContainerManager Creds) (ctx : Ctx)
    (resourceGroupName accountName containerName : String) (accessLevel : PublicAccess)
    (s : σ)
    (h : (getContainerClient env m.creds (World.init s)).1.2 = none) :
    (CreateBlobContainer env m ctx resourceGroupName accountName containerName accessLevel
        (World.init s)).2.trace =
      [Event.GetResourceManagementAuthorizer m.creds,
       Event.Create (getContainerClient env m.creds (World.init s)).1.1 ctx
        resourceGroupName accountName containerName
        ({ Response := 0,
           ContainerProperties := some { PublicAccess := accessLevel, other := 0 },
           Name := none, other := 0 } : BlobContainer H P B)] ∧
    (GetBlobContainer env m ctx resourceGroupName accountName containerName
        (World.init s)).2.trace =
      [Event.GetResourceManagementAuthorizer m.creds,
       Event.Get (getContainerClient env m.creds (World.init s)).1.1 ctx
        resourceGroupName accountName containerName] ∧
    (DeleteBlobContainer env m ctx resourceGroupName accountName containerName
        (World.init s)).2.trace =
      [Event.GetResourceManagementAuthorizer m.creds,
       Event.Delete (getContainerClient env m.creds (World.init s)).1.1 ctx
        resourceGroupName accountName containerName] := by
  refine ⟨?_, ?_, ?_⟩
  · rw [CreateBlobContainer_client_ok env m ctx _ _ _ _ _ h]
    split <;> simp [callCreate, getContainerClient_trace_init]
  · rw [GetBlobContainer_client_ok env m ctx _ _ _ _ h]
    simp [callGet, getContainerClient_trace_init]
  · rw [DeleteBlobContainer_client_ok env m ctx _ _ _ _ h]
    simp [callDelete, getContainerClient_trace_init]

/-- Witness of C8 on the mock environment, with empty identifier strings. -/
theorem one_remote_call_witness :
    (getContainerClient mockEnvOk mockManager.creds (World.init 0)).1.2 = none ∧
    (DeleteBlobContainer mockEnvOk mockManager 7 "" "" "" (World.init 0)).2.trace =
      [Event.GetResourceManagementAuthorizer "sub-1",
       Event.Delete (getContainerClient mockEnvOk mockManager.creds (World.init 0)).1.1 7
        "" "" ""] :=
  ⟨rfl,
   (one_authorizer_call_then_one_remote_call mockEnvOk mockManager 7 "" "" ""
      PublicAccessNone 0 rfl).2.2⟩

/-- C9: `getContainerClient(c)`, when the authorization collaborator succeeds
with handle `h`, returns a nil error and the client built by the SDK constructor
from `config.BaseURI()` and `c.SubscriptionID()`, with `Authorizer` set to `h`
and then `config.UserAgent()` added to its user agent; under the contract of the
SDK functions its base URI is `config.BaseURI()`, its subscription ID is
`c.SubscriptionID()` and its authorizer is `h`.  When the collaborator fails with
error `e`, it returns `e` with the zero-value client (empty base URI,
subscription ID and user agent, nil authorizer, other fields zero). -/
theorem getContainerClient_result [Zero C]
    (env : Env Creds Ctx Auth Err H P B C σ) (c : Creds) (w : World Creds Ctx Auth H P B C σ) :
    (∀ h : Option Auth, (env.GetResourceManagementAuthorizer c w.state).1 = (h, none) →
      (getContainerClient env c w).1 =
        (env.AddToUserAgent
          { env.NewBlobContainersClientWithBaseURI env.BaseURI (env.SubscriptionID c) with
            Authorizer := h }
          env.UserAgent, none) ∧
      (SDKContract env →
        (getContainerClient env c w).1.1.BaseURI = env.BaseURI ∧
        (getContainerClient env c w).1.1.SubscriptionID = env.SubscriptionID c ∧
        (getContainerClient env c w).1.1.Authorizer = h)) ∧
    (∀ e : Err, (env.GetResourceManagementAuthorizer c w.state).1.2 = some e →
      (getContainerClient env c w).1 = (0, some e) ∧
      (getContainerClient env c w).1.1.BaseURI = "" ∧
      (getContainerClient env c w).1.1.SubscriptionID = "" ∧
      (getContainerClient env c w).1.1.Authorizer = none ∧
      (getContainerClient env c w).1.1.UserAgent = "" ∧
      (getContainerClient env c w).1.1.other = 0) := by
  constructor
  · intro h hh
    have e1 : (getContainerClient env c w).1 =
        (env.AddToUserAgent
          { env.NewBlobContainersClientWithBaseURI env.BaseURI (env.SubscriptionID c) with
            Authorizer := h }
          env.UserAgent, none) := by
      unfold getContainerClient callGetResourceManagementAuthorizer
      simp [hh]
    refine ⟨e1, ?_⟩
    intro hc
    rw [e1]
    obtain ⟨hnew, hadd⟩ := hc
    obtain ⟨a1, a2, a3⟩ := hadd
      { env.NewBlobContainersClientWithBaseURI env.BaseURI (env.SubscriptionID c) with
        Authorizer := h } env.UserAgent
    obtain ⟨n1, n2⟩ := hnew env.BaseURI (env.SubscriptionID c)
    exact ⟨a1.trans n1, a2.trans n2, a3⟩
  · intro e he
    have e1 : (getContainerClient env c w).1 = (0, some e) := by
      unfold getContainerClient callGetResourceManagementAuthorizer
      simp [he]
    rw [e1]
    exact ⟨rfl, rfl, rfl, rfl, rfl, rfl⟩

/-- Witness of C9 on the mock environments: the success case, with the mock SDK
functions meeting the contract, and the failure case. -/
theorem getContainerClient_witness :
    ((mockEnvOk.GetResourceManagementAuthorizer "sub-1" 0).1 = (some "token", none) ∧
      SDKContract mockEnvOk ∧
      (getContainerClient mockEnvOk "sub-1" (World.init 0)).1 =
        ({ BaseURI := "https://management.azure.com/", SubscriptionID := "sub-1",
           Authorizer := some "token",
           UserAgent := "Azure-SDK-For-Go azure-service-operator", other := 0 }, none) ∧
      (getContainerClient mockEnvOk "sub-1" (World.init 0)).1.1.BaseURI = mockEnvOk.BaseURI ∧
      (getContainerClient mockEnvOk "sub-1" (World.init 0)).1.1.SubscriptionID = "sub-1" ∧
      (getContainerClient mockEnvOk "sub-1" (World.init 0)).1.1.Authorizer = some "token") ∧
    ((mockEnvAuthFails.GetResourceManagementAuthorizer "sub-1" 0).1.2 = some "unauthorized" ∧
      (getContainerClient mockEnvAuthFails "sub-1" (World.init 0)).1
        = (0, some "unauthorized")) :=
  have hc : SDKContract mockEnvOk :=
    ⟨fun _ _ => ⟨rfl, rfl⟩, fun _ _ => ⟨rfl, rfl, rfl⟩⟩
  ⟨⟨rfl, hc,
    ((getContainerClient_result mockEnvOk "sub-1" (World.init 0)).1 (some "token") rfl).1,
    ((getContainerClient_result mockEnvOk "sub-1" (World.init 0)).1 (some "token") rfl).2 hc⟩,
   ⟨rfl,
    ((getContainerClient_result mockEnvAuthFails "sub-1" (World.init 0)).2
      "unauthorized" rfl).1⟩⟩

/-- C10: `CreateBlobContainer` returns exactly one of a container and an error:
the returned pointer is nil if and only if the returned error is non-nil; and
when, after a successful client construction, the remote Create call returns a
non-nil error together with a container value, the returned pointer is nil. -/
theorem create_returns_container_xor_error [Zero C] [Zero P] [Zero B]
    (env : Env Creds Ctx Auth Err H P B C σ) (m : AzureBlobContainerManager Creds) (ctx : Ctx)
    (resourceGroupName accountName containerName : String) (accessLevel : PublicAccess)
    (w : World Creds Ctx Auth H P B C σ) :
    ((CreateBlobContainer env m ctx resourceGroupName accountName containerName accessLevel
        w).1.1 = none ↔
      (CreateBlobContainer env m ctx resourceGroupName accountName containerName accessLevel
        w).1.2 ≠ none) ∧
    (∀ (r : BlobContainer H P B) (e : Err),
      (getContainerClient env m.creds w).1.2 = none →
      (env.Create (getContainerClient env m.creds w).1.1 ctx resourceGroupName accountName
        containerName
        { Response := 0, ContainerProperties := some { PublicAccess := accessLevel, other := 0 },
          Name := none, other := 0 }
        (getContainerClient env m.creds w).2.state).1 = (r, some e) →
      (CreateBlobContainer env m ctx resourceGroupName accountName containerName accessLevel
        w).1 = (none, some e)) := by
  constructor
  · cases h : (getContainerClient env m.creds w).1.2 with
    | some e =>
      rw [CreateBlobContainer_client_error env m ctx _ _ _ _ w e h]
      simp
    | none =>
      rw [CreateBlobContainer_client_ok env m ctx _ _ _ _ w h]
      split
      · rename_i hs
        obtain ⟨e, he⟩ := Option.isSome_iff_exists.mp hs
        simp [he]
      · simp
  · intro r e h hr
    rw [CreateBlobContainer_client_ok env m ctx _ _ _ _ w h, hr]
    rfl

/-- Witness of C10 on the mock environment whose remote Create fails while
returning a non-zero container value. -/
theorem create_discards_container_witness :
    (getContainerClient mockEnvRemoteFails mockManager.creds (World.init 0)).1.2 = none ∧
    (mockEnvRemoteFails.Create
        (getContainerClient mockEnvRemoteFails mockManager.creds (World.init 0)).1.1
        7 "rg1" "acct1" "c1"
        { Response := 0,
          ContainerProperties := some { PublicAccess := PublicAccessNone, other := 0 },
          Name := none, other := 0 }
        (getContainerClient mockEnvRemoteFails mockManager.creds (World.init 0)).2.state).1
      = (notFoundResult, some "conflict") ∧
    (CreateBlobContainer mockEnvRemoteFails mockManager 7 "rg1" "acct1" "c1" PublicAccessNone
        (World.init 0)).1 = (none, some "conflict") :=
  ⟨rfl, rfl,
   (create_returns_container_xor_error mockEnvRemoteFails mockManager 7 "rg1" "acct1" "c1"
      PublicAccessNone (World.init 0)).2 notFoundResult "conflict" rfl rfl⟩

end Claims

end blobcontainer
